import Mathlib

/-!
Verification of the EODHD MCP server's OAuth authorization subsystem and
upstream credential sink, as a shallow embedding of the Python source
(`app/oauth/token_storage.py`, `app/oauth/auth_server.py`, `app/api_client.py`).

Conventions:
* Python `str` is modelled as Lean `String`, except in the `ApiClient`
  section where character-level slicing matters and `List Char` is used.
* `time.time()` timestamps (Python floats compared with `>`) are modelled
  as rationals `ℚ`; only order comparisons on them occur in the source.
* External primitives (SHA-256 digests, DNS resolution, IP-address
  classification) are parameters of the definitions that call them,
  mirroring the calls into `hashlib`, `socket` and `ipaddress`.
-/

namespace EodhdMcp

/-! ## Token storage (`app/oauth/token_storage.py`)

The storage keeps five keyed collections (`oauth_clients`, `oauth_auth_codes`,
`oauth_access_tokens`, `oauth_users`, `oauth_api_key_to_email`).  Each
collection is modelled as a function from key to optional value; `_put`
overwrites, `_delete` removes. -/

/-- `OAuthClient` dataclass (token_storage.py lines 48-57). -/
structure OAuthClient where
  client_id : String
  client_secret : Option String
  redirect_uris : List String
  client_name : String
  grant_types : List String := ["authorization_code"]
  response_types : List String := ["code"]
  token_endpoint_auth_method : String := "none"
  created_at : ℚ := 0
deriving DecidableEq, Repr

/-- `AuthorizationCode` dataclass (token_storage.py lines 60-70). -/
structure ACode where
  code : String
  client_id : String
  redirect_uri : String
  user_id : String
  scopes : List String
  expires_at : ℚ
  code_challenge : Option String := none
  code_challenge_method : Option String := none
  resource : Option String := none
deriving DecidableEq, Repr

/-- `AccessToken` dataclass (token_storage.py lines 73-80). -/
structure AccessTok where
  token : String
  client_id : String
  user_id : String
  scopes : List String
  expires_at : ℚ
  issued_at : ℚ
deriving DecidableEq, Repr

/-- `User` dataclass (token_storage.py lines 83-90). -/
structure UserRec where
  email : String
  eodhd_api_key : String
  name : String := ""
  subscription_type : String := ""
  scopes : List String := ["full-access"]
  created_at : ℚ := 0
deriving DecidableEq, Repr

/-- The five collections of `TokenStorage` (token_storage.py lines 117-133).
`index` is `oauth_api_key_to_email`, mapping `_hash_secret(api_key)` to the
user's email. -/
structure Store where
  clients : String → Option OAuthClient
  users : String → Option UserRec
  index : String → Option String
  codes : String → Option ACode
  toks : String → Option AccessTok

/-- The empty store (all collections empty), the state at process start. -/
def Store.empty : Store :=
  ⟨fun _ => none, fun _ => none, fun _ => none, fun _ => none, fun _ => none⟩

/-- Overwrite-update of one collection (the `_put` of token_storage.py). -/
def upd {α : Type} (m : String → Option α) (k : String) (v : α) :
    String → Option α :=
  fun k' => if k' = k then some v else m k'

/-- Removal from one collection (the `_delete` of token_storage.py). -/
def del {α : Type} (m : String → Option α) (k : String) :
    String → Option α :=
  fun k' => if k' = k then none else m k'

/-- `TokenStorage.get_access_token` (token_storage.py lines 216-223):
look the token up under `_hash_secret(token)`, then return "not found"
when `time.time() > at.expires_at` (strict comparison in the source).
`hash` stands for `_hash_secret` (SHA-256 hex). -/
def get_access_token (hash : String → String) (s : Store) (now : ℚ)
    (token : String) : Option AccessTok :=
  match s.toks (hash token) with
  | none => none
  | some at_ => if now > at_.expires_at then none else some at_

/-- `TokenStorage.consume_auth_code` (token_storage.py lines 201-209), run
to completion with no interleaving: get, return "not found" if absent,
otherwise delete and then return "not found" when
`time.time() > ac.expires_at` (strict comparison in the source).
Returns the result and the updated `oauth_auth_codes` collection. -/
def consume_auth_code (s : Store) (now : ℚ) (code : String) :
    Option ACode × (String → Option ACode) :=
  match s.codes code with
  | none => (none, s.codes)
  | some ac =>
      (if now > ac.expires_at then none else some ac, del s.codes code)

/-- The mutating operations of `TokenStorage`:
`register_client` (line 183), `add_user` (lines 159-161),
`store_auth_code` (lines 197-199), the delete performed by
`consume_auth_code` (line 205), and `store_access_token` (lines 212-214).
The read-only methods do not change the store. -/
inductive StoreOp where
  | registerClient (c : OAuthClient)
  | addUser (u : UserRec)
  | storeAuthCode (a : ACode)
  | consumeAuthCode (code : String)
  | storeAccessToken (t : AccessTok)

/-- Effect of one storage method on the collections.  `add_user` writes
`oauth_users[user.email]` and then `oauth_api_key_to_email[hash(key)]`;
`register_client` overwrites `oauth_clients[client.client_id]`
unconditionally; `store_access_token` keys by `hash(token)`. -/
def applyOp (hash : String → String) (s : Store) : StoreOp → Store
  | .registerClient c => { s with clients := upd s.clients c.client_id c }
  | .addUser u =>
      { s with
        users := upd s.users u.email u
        index := upd s.index (hash u.eodhd_api_key) u.email }
  | .storeAuthCode a => { s with codes := upd s.codes a.code a }
  | .consumeAuthCode code => { s with codes := del s.codes code }
  | .storeAccessToken t => { s with toks := upd s.toks (hash t.token) t }

/-- A sequence of storage operations applied in order. -/
def applyOps (hash : String → String) (s : Store) (ops : List StoreOp) :
    Store :=
  ops.foldl (applyOp hash) s

/-! ### Interleaved execution of `consume_auth_code`

`consume_auth_code` performs two separate awaited storage calls:
`await self._get(...)` and then `await self._delete(...)`
(token_storage.py lines 202 and 205).  Each `await` on the backing
`key_value.aio` store is a suspension point (the specification's storage
contract says all operations may suspend), so two concurrent `/token`
handlers can interleave between the get and the delete.  The model below
runs two consumers of the same code under an explicit schedule; each
atomic step is one storage call plus the purely local computation that
follows it. -/

/-- Program counter of one consumer running `consume_auth_code code`:
not started, between the get and the delete (holding the value the get
returned), or finished with its result. -/
inductive ConsumerPc where
  | start
  | gotten (d : ACode)
  | done (r : Option ACode)
deriving DecidableEq, Repr

/-- One atomic step of a consumer against the `oauth_auth_codes` entry for
the contested code.  From `start`: the `_get`; if it found nothing the
consumer returns `None` at once (line 203-204).  From `gotten d`: the
`_delete` (line 205) followed by the local expiry check and return
(lines 206-209). -/
def stepConsumer (now : ℚ) (store : Option ACode) (pc : ConsumerPc) :
    Option ACode × ConsumerPc :=
  match pc with
  | .start =>
      match store with
      | none => (none, .done none)
      | some d => (store, .gotten d)
  | .gotten d =>
      (none, .done (if now > d.expires_at then none else some d))
  | .done r => (store, .done r)

/-- State of two concurrent `/token` handlers consuming the same code:
the store entry and both program counters. -/
structure RaceState where
  store : Option ACode
  p1 : ConsumerPc
  p2 : ConsumerPc
deriving DecidableEq, Repr

/-- Run the two consumers under a schedule (`true` = consumer 1 moves,
`false` = consumer 2 moves). -/
def runRace (now : ℚ) (sched : List Bool) (s : RaceState) : RaceState :=
  match sched with
  | [] => s
  | b :: rest =>
      if b then
        let (st, pc) := stepConsumer now s.store s.p1
        runRace now rest ⟨st, pc, s.p2⟩
      else
        let (st, pc) := stepConsumer now s.store s.p2
        runRace now rest ⟨st, s.p1, pc⟩

/-! ## Authorization server (`app/oauth/auth_server.py`) -/

/-- Python's `str.lower()` (ASCII case folding, character-wise). -/
def pyLower (s : String) : String :=
  String.mk (s.toList.map Char.toLower)

/-- Python's `str.strip()` with no argument: remove leading and trailing
whitespace. -/
def pyStrip (s : String) : String :=
  String.mk
    (((s.toList.dropWhile Char.isWhitespace).reverse.dropWhile
      Char.isWhitespace).reverse)

/-- Python's `str.startswith(pre)`. -/
def pyStartsWith (s pre : String) : Bool :=
  decide (pre.toList <+: s.toList)

/-- Python truthiness coalescing for optional request/form parameters:
`None` and the empty string are both falsy. -/
def truthy (o : Option String) : Option String :=
  match o with
  | some s => if s = "" then none else some s
  | none => none

/-- Configured default scope (`DEFAULT_SCOPE`, auth_server.py line 66,
environment default `full-access`). -/
def DEFAULT_SCOPE : String := "full-access"

/-- The URL-safe base64 alphabet used by `base64.urlsafe_b64encode`. -/
def b64UrlAlphabet : List Char :=
  "ABCDEFGHIJKLMNOPQRSTUVWXYZabcdefghijklmnopqrstuvwxyz0123456789-_".toList

/-- One output character of base64 for a 6-bit group. -/
def b64Char (n : Nat) : Char := b64UrlAlphabet.getD n 'A'

/-- `_base64url` (auth_server.py lines 93-94):
`base64.urlsafe_b64encode(data).rstrip(b"=")`, written here directly in
its unpadded form over the byte list. -/
def base64urlNoPad : List Nat → List Char
  | [] => []
  | [b1] => [b64Char (b1 / 4), b64Char (b1 % 4 * 16)]
  | [b1, b2] =>
      [b64Char (b1 / 4), b64Char (b1 % 4 * 16 + b2 / 16), b64Char (b2 % 16 * 4)]
  | b1 :: b2 :: b3 :: rest =>
      b64Char (b1 / 4) :: b64Char (b1 % 4 * 16 + b2 / 16) ::
        b64Char (b2 % 16 * 4 + b3 / 64) :: b64Char (b3 % 64) ::
        base64urlNoPad rest

/-- `_pkce_s256` (auth_server.py lines 97-99):
`_base64url(hashlib.sha256(code_verifier.encode("utf-8")).digest())`.
The SHA-256 digest (an external primitive from `hashlib`) is the
parameter `sha256`, mapping the verifier string to its digest bytes. -/
def pkce_s256 (sha256 : String → List Nat) (v : String) : String :=
  String.mk (base64urlNoPad (sha256 v))

/-- An OAuth protocol error as returned by the token endpoint:
`JSONResponse({"error": ..., "error_description": ...}, status_code)`. -/
structure OAuthError where
  error : String
  error_description : String
  status : Nat
deriving DecidableEq, Repr

/-- The PKCE validation portion of `token_endpoint`
(auth_server.py lines 674-681), reached after the authorization code is
consumed and the client, redirect URI and resource checks pass.  Returns
the error response it produces, or `none` when the check passes and
token issuance proceeds.  `if auth_code.code_challenge:` and
`if not code_verifier:` are Python truthiness tests. -/
def pkceCheck (sha256 : String → List Nat) (ac : ACode)
    (code_verifier : Option String) : Option OAuthError :=
  match truthy ac.code_challenge with
  | none => none
  | some cc =>
      if ac.code_challenge_method ≠ some "S256" then
        some ⟨"invalid_grant", "Unsupported PKCE method", 400⟩
      else
        match truthy code_verifier with
        | none => some ⟨"invalid_request", "code_verifier is required", 400⟩
        | some v =>
            if pkce_s256 sha256 v ≠ cc then
              some ⟨"invalid_grant", "Invalid code_verifier", 400⟩
            else none

/-- Characters `urllib.parse` accepts inside a URL scheme. -/
def schemeChar (c : Char) : Bool :=
  c.isAlphanum || c == '+' || c == '-' || c == '.'

/-- The scheme-splitting step of `urllib.parse.urlparse`: if the string
has a `:` preceded by a valid non-empty scheme (first character a
letter), return the lowercased scheme and the remainder; otherwise the
scheme is empty. -/
def splitScheme (u : String) : String × String :=
  let cs := u.toList
  match cs.findIdx? (fun c => c == ':') with
  | some i =>
      let pre := cs.take i
      if 0 < i ∧ pre.all schemeChar ∧ (pre.headD 'A').isAlpha then
        (String.mk (pre.map Char.toLower), String.mk (cs.drop (i + 1)))
      else ("", u)
  | none => ("", u)

/-- The netloc of the post-scheme remainder, per `urllib.parse`: present
exactly when the remainder starts with `//`, extending to the next
`/`, `?` or `#`. -/
def netlocOf (rest : String) : String :=
  match rest.toList with
  | '/' :: '/' :: r =>
      String.mk (r.takeWhile (fun c => ¬ (c == '/' || c == '?' || c == '#')))
  | _ => ""

/-- `_safe_redirect_uri` (auth_server.py lines 136-144): the parsed
scheme must be `http` or `https` and the netloc non-empty. -/
def safe_redirect_uri (url : String) : Bool :=
  let (scheme, rest) := splitScheme url
  (scheme == "http" || scheme == "https") && netlocOf rest ≠ ""

/-- The names bound in `app/oauth/auth_server.py` by
`from starlette.responses import ...` (line 42).  `HTMLResponse` is not
among them, and no other statement of the module binds that name. -/
def starletteResponsesImported : List String :=
  ["JSONResponse", "RedirectResponse", "Response"]

/-- An HTTP response produced by rendering an authorization-server
result.  `redirect303` stands for
`RedirectResponse(url=_add_params(uri, params), status_code=303)`, with
the query-parameter merge kept structured. -/
inductive HttpResponse where
  | redirect303 (uri : String) (params : List (String × String))
  | html (body : String) (status : Nat)
  | internalServerError (exn : String)
deriving DecidableEq, Repr

/-- `_error_page` (auth_server.py lines 161-162) as it executes: the body
calls `HTMLResponse`, a name the module never binds
(cf. `starletteResponsesImported`), so in the source as written the call
raises `NameError` and Starlette's error middleware answers 500.  Had the
name been imported, the result would be the 400 HTML page the body
constructs. -/
def error_page (message : String) (status : Nat) : HttpResponse :=
  if "HTMLResponse" ∈ starletteResponsesImported then
    .html ("<h1>Error</h1><p>" ++ message ++ "</p>") status
  else
    .internalServerError "NameError: name HTMLResponse is not defined"

/-- The query parameters of a `GET /authorize` request together with the
session state the endpoint consults (auth_server.py lines 536-546). -/
structure AuthorizeRequest where
  logged_in : Bool
  session_user_id : Option String
  response_type : Option String
  client_id : Option String
  redirect_uri : Option String
  state : Option String
  scope : Option String
  code_challenge : Option String
  code_challenge_method : Option String

/-- Outcome of `authorize_endpoint` before response rendering:
redirect to `/login`, `_error_page`, `_oauth_error_redirect`
(303 to the URI with `error`/`error_description`/optional `state`), or
the success path that stores an `AuthorizationCode` and issues a 303
carrying `code` and the echoed `state`. -/
inductive AuthorizeResult where
  | loginRedirect
  | errorPage (message : String) (status : Nat)
  | errorRedirect (uri error description : String) (state : Option String)
  | codeRedirect (uri code : String) (state : Option String) (stored : ACode)
deriving DecidableEq, Repr

/-- `_load_or_discover_client` (auth_server.py lines 335-361): storage
lookup first; on a miss, metadata discovery only when the client_id
starts (case-insensitively) with `https://`.  `discover` stands for the
fetch-validate-and-convert path of lines 347-361 (HTTP involved), with
`none` for any discovery failure; the side effect of registering the
discovered client is handled by the `StoreOp` model. -/
def load_or_discover_client (clients discover : String → Option OAuthClient)
    (cid : String) : Option OAuthClient :=
  match clients cid with
  | some c => some c
  | none =>
      if pyStartsWith (pyLower cid) "https://" then discover cid else none

/-- Python's `str.split()` with no argument for the space-separated
scope string (whitespace split dropping empty fields). -/
def pySplit (s : String) : List String :=
  (s.splitOn " ").filter (fun t => t ≠ "")

/-- `authorize_endpoint` (auth_server.py lines 532-595).  `newCode` is
the fresh `secrets.token_urlsafe(32)` value, `resource` the
`_resource_url_for_path` result, `authCodeExpires` the configured
`AUTH_CODE_EXPIRES`.  Parameter handling follows the source, including
the truthiness tests `if not client_id or not redirect_uri`,
`if code_challenge_method:` and `if not code_challenge:`, and the
membership test `str(redirect_uri) not in client.redirect_uris`. -/
def authorize (clients discover : String → Option OAuthClient)
    (req : AuthorizeRequest) (newCode : String) (now : ℚ)
    (resource : String) (authCodeExpires : ℚ) : AuthorizeResult :=
  if ¬ req.logged_in then .loginRedirect
  else
    let scope := (truthy req.scope).getD DEFAULT_SCOPE
    if req.response_type ≠ some "code" then
      match truthy req.redirect_uri with
      | some uri =>
          if safe_redirect_uri uri then
            .errorRedirect uri "unsupported_response_type"
              "Only response_type=code is supported" (truthy req.state)
          else .errorPage "Only response_type=code is supported" 400
      | none => .errorPage "Only response_type=code is supported" 400
    else
      match truthy req.client_id, truthy req.redirect_uri with
      | some cid, some uri =>
          (match load_or_discover_client clients discover cid with
           | none =>
               .errorPage
                 "Unknown client_id (and metadata discovery failed or is unsupported)"
                 400
           | some client =>
               if uri ∉ client.redirect_uris then
                 .errorRedirect uri "invalid_request" "Invalid redirect_uri"
                   (truthy req.state)
               else
                 let scopes := if scope ≠ "" then pySplit scope else [DEFAULT_SCOPE]
                 let stored : ACode :=
                   { code := newCode
                     client_id := client.client_id
                     redirect_uri := uri
                     user_id := (truthy req.session_user_id).getD ""
                     scopes := scopes
                     expires_at := now + authCodeExpires
                     code_challenge := req.code_challenge
                     code_challenge_method := req.code_challenge_method
                     resource := some resource }
                 let issue := AuthorizeResult.codeRedirect uri newCode
                   (truthy req.state) stored
                 match truthy req.code_challenge_method with
                 | some m =>
                     if m ≠ "S256" then
                       .errorRedirect uri "invalid_request"
                         "Only code_challenge_method=S256 is supported"
                         (truthy req.state)
                     else
                       match truthy req.code_challenge with
                       | none =>
                           .errorRedirect uri "invalid_request"
                             "code_challenge is required when code_challenge_method is provided"
                             (truthy req.state)
                       | some _ => issue
                 | none => issue)
      | _, _ => .errorPage "Missing required parameters" 400

/-- Rendering of an `AuthorizeResult` to the HTTP response the handler
returns: `_error_page` calls go through `error_page` above, error and
success redirects become 303 responses built by `_add_params`. -/
def renderAuthorize (r : AuthorizeResult) : HttpResponse :=
  match r with
  | .loginRedirect => .redirect303 "/login" []
  | .errorPage m s => error_page m s
  | .errorRedirect uri err desc st =>
      .redirect303 uri
        ([("error", err), ("error_description", desc)] ++
          (match st with | some s => [("state", s)] | none => []))
  | .codeRedirect uri code st _ =>
      .redirect303 uri
        ([("code", code)] ++
          (match st with | some s => [("state", s)] | none => []))

/-! ## Client ID Metadata Document resolver and SSRF guard
(`app/oauth/auth_server.py` lines 169-332) -/

/-- An IP address as classified by Python's `ipaddress` module: the
textual address and its `is_global` attribute (the source consults only
that attribute, via `_is_global_ip`). -/
structure IpAddr where
  addr : String
  globalRoutable : Bool
deriving DecidableEq, Repr

/-- `_is_global_ip` (auth_server.py lines 169-173): read the address's
`is_global` classification. -/
def is_global_ip (ip : IpAddr) : Bool := ip.globalRoutable

/-- The name-resolution environment: `ipaddress.ip_address` parsing
(`none` on `ValueError`, i.e. the hostname is not an IP literal) and
`socket.getaddrinfo` (`none` when resolution raises). -/
structure DnsEnv where
  parseIp : String → Option IpAddr
  getaddrinfo : String → Option (List IpAddr)

/-- Python's `str.strip("[]")` for bracketed IPv6 literals. -/
def stripBrackets (s : String) : String :=
  let br : Char → Bool := fun c => c == '[' || c == ']'
  String.mk (((s.toList.dropWhile br).reverse.dropWhile br).reverse)

/-- `_hostname_is_public` (auth_server.py lines 176-213): reject empty
hostnames and the localhost names; classify IP literals directly; else
resolve and require every resolved address to be globally routable,
failing closed on resolution errors or an empty result. -/
def hostname_is_public (env : DnsEnv) (hostname : String) : Bool :=
  if hostname = "" then false
  else if pyLower (pyStrip hostname) = "localhost" ∨
      pyLower (pyStrip hostname) = "localhost.localdomain" then false
  else
    match env.parseIp (stripBrackets (pyLower (pyStrip hostname))) with
    | some ip => is_global_ip ip
    | none =>
        match env.getaddrinfo hostname with
        | none => false
        | some infos =>
            if infos.isEmpty then false else infos.all is_global_ip

/-- A `client_id` URL as decomposed by `urllib.parse.urlparse`:
the raw string plus the components the validator reads. -/
structure ClientIdUrl where
  raw : String
  scheme : String
  netloc : String
  hostname : String
  username : String
  password : String
  path : String
  fragment : String
deriving DecidableEq, Repr

/-- `_validate_client_id_url` (auth_server.py lines 216-260): the checks
in source order, returning the first error message or `none`. -/
def validate_client_id_url (env : DnsEnv) (url : ClientIdUrl) :
    Option String :=
  if url.raw = "" then some "client_id is required"
  else if pyLower url.scheme ≠ "https" then
    some "client_id must use https scheme"
  else if url.netloc = "" then some "client_id must include a host"
  else if url.path = "" ∨ url.path = "/" then
    some "client_id must contain a path component"
  else if url.fragment ≠ "" then some "client_id must not contain a fragment"
  else if url.username ≠ "" ∨ url.password ≠ "" then
    some "client_id must not contain username/password"
  else if ((url.path.splitOn "/").filter (fun seg => seg ≠ "")).any
      (fun seg => seg = "." ∨ seg = "..") then
    some "client_id must not contain dot path segments"
  else if ¬ hostname_is_public env url.hostname then
    some "client_id host is not publicly routable"
  else none

/-- Fields of the parsed metadata document that
`_fetch_client_metadata_document` reads.  `redirect_uris` is `some`
exactly when the key is present as a list of strings;
`token_endpoint_auth_method` is `some` when present and non-null. -/
structure MetaJson where
  client_id : Option String
  redirect_uris : Option (List String)
  token_endpoint_auth_method : Option String
  client_name : Option String
deriving DecidableEq, Repr

/-- What the metadata HTTP GET returns: status, body size, whether the
body parses as JSON, the parsed object when it is a JSON object, and the
`Cache-Control: max-age` value if any. -/
structure HttpResp where
  status : Nat
  contentLength : Nat
  isJson : Bool
  dict : Option MetaJson
  maxAge : Option Nat
deriving DecidableEq, Repr

/-- `_SECRET_BASED_AUTH_METHODS` (auth_server.py lines 81-86). -/
def SECRET_BASED_AUTH_METHODS : List String :=
  ["client_secret_post", "client_secret_basic", "client_secret_jwt",
   "tls_client_auth"]

/-- `CLIENT_META_MAX_BYTES` default (auth_server.py line 73). -/
def CLIENT_META_MAX_BYTES : Nat := 1048576

/-- `_fetch_client_metadata_document` (auth_server.py lines 277-332):
validate the URL (including the SSRF guard), consult the cache, and only
then perform the HTTP GET and validate its result.  The return value
pairs the outcome (`ValueError` messages as `.error`) with a flag that
is `true` exactly when the HTTP request of line 292 was issued.  The
cache-write and cache-evict side effects are omitted; they occur only on
paths this model already distinguishes. -/
def fetch_client_metadata_document (env : DnsEnv)
    (cache : String → Option (MetaJson × ℚ)) (now : ℚ)
    (http : String → HttpResp) (url : ClientIdUrl) :
    Except String MetaJson × Bool :=
  match validate_client_id_url env url with
  | some err => (.error err, false)
  | none =>
      let doFetch : Except String MetaJson × Bool :=
        let resp := http url.raw
        if resp.status ≠ 200 then
          (.error "Unable to fetch client metadata document", true)
        else if resp.contentLength > CLIENT_META_MAX_BYTES then
          (.error "Client metadata document is too large", true)
        else if ¬ resp.isJson then
          (.error "Client metadata document is not valid JSON", true)
        else
          match resp.dict with
          | none => (.error "Client metadata document must be a JSON object", true)
          | some meta =>
              match truthy meta.client_id with
              | none =>
                  (.error "client_id in metadata document does not match the document URL", true)
              | some cid =>
                  if cid ≠ url.raw then
                    (.error "client_id in metadata document does not match the document URL", true)
                  else
                    match meta.redirect_uris with
                    | none =>
                        (.error "Client metadata document must include non-empty redirect_uris list", true)
                    | some rs =>
                        if rs = [] ∨ rs.any (fun r => pyStrip r = "") then
                          (.error "Client metadata document must include non-empty redirect_uris list", true)
                        else
                          let tam :=
                            match meta.token_endpoint_auth_method with
                            | none => "none"
                            | some t => pyStrip t
                          if tam ∈ SECRET_BASED_AUTH_METHODS then
                            (.error "token_endpoint_auth_method must not be shared-secret based for client_id documents", true)
                          else if ¬ (tam = "none" ∨ tam = "") then
                            (.error "Unsupported token_endpoint_auth_method for client_id document", true)
                          else (.ok meta, true)
      match cache url.raw with
      | some (meta, exp) => if now < exp then (.ok meta, false) else doFetch
      | none => doFetch

/-! ## Upstream credential sink (`app/api_client.py`)

Python `str` is modelled character-wise as `List Char` in this section,
so that slicing and length behave exactly as in the source. -/

/-- Python strings, as their character sequences. -/
abbrev PyStr := List Char

/-- The literal substring `"api_token="` tested by
`_ensure_api_token` (api_client.py line 77). -/
def API_TOKEN_SUBSTR : PyStr := "api_token=".toList

/-- Request-scoped inputs of `_ensure_api_token`: the token and HTTP-ness
flag returned by `_resolve_eodhd_token_from_request` (api_client.py
lines 20-67), and the `EODHD_API_KEY` environment value. -/
structure RequestContext where
  ctxToken : Option PyStr
  isHttp : Bool
  envToken : Option PyStr

/-- Credential injection (api_client.py lines 82 and 88):
`url + (f"&api_token={token}" if "?" in url else f"?api_token={token}")`. -/
def addTokenToUrl (url tok : PyStr) : PyStr :=
  url ++ (if '?' ∈ url then "&api_token=".toList else "?api_token=".toList)
    ++ tok

/-- The error message of api_client.py line 90. -/
def MISSING_TOKEN_MSG : PyStr :=
  "Missing API token. Provide it via OAuth (Bearer), query param, header, or env for stdio.".toList

/-- `_ensure_api_token` (api_client.py lines 70-90): pass the URL through
untouched when it already contains the substring `"api_token="` anywhere;
otherwise inject the request-context token if truthy; otherwise, only in
non-HTTP contexts, inject the environment token if truthy; otherwise
report the missing-token error.  Returns `(url?, error?)`. -/
def ensure_api_token (ctx : RequestContext) (url : PyStr) :
    Option PyStr × Option PyStr :=
  if API_TOKEN_SUBSTR <:+: url then (some url, none)
  else
    let envFallback : Option PyStr × Option PyStr :=
      if ¬ ctx.isHttp then
        match ctx.envToken with
        | some e =>
            if e ≠ [] then (some (addTokenToUrl url e), none)
            else (none, some MISSING_TOKEN_MSG)
        | none => (none, some MISSING_TOKEN_MSG)
      else (none, some MISSING_TOKEN_MSG)
    match ctx.ctxToken with
    | some t => if t ≠ [] then (some (addTokenToUrl url t), none) else envFallback
    | none => envFallback

/-- What the upstream HTTP call produced: status code, `Content-Type`,
`response.text`, and the result of `response.json()` (`none` when the
body is not valid JSON; the parsed document itself is opaque here). -/
structure UpstreamResponse where
  status : Nat
  content_type : PyStr
  body : PyStr
  jsonVal : Option PyStr
deriving DecidableEq, Repr

/-- The dictionaries `make_request` returns: the JSON passthrough, the
non-JSON wrapper `{error, status_code, content_type, text}`
(api_client.py lines 150-155), the non-2xx wrapper
`{error, status_code, text}` (lines 162-166, the `error` field being the
`HTTPStatusError` message), and the plain `{error: msg}` shape. -/
inductive ApiResult where
  | ok (payload : PyStr)
  | nonJsonWrap (status : Nat) (content_type : PyStr) (text : PyStr)
  | statusWrap (status : Nat) (text : PyStr)
  | errorMsg (msg : PyStr)
deriving DecidableEq, Repr

/-- The truncation applied to wrapper `text` fields (api_client.py
lines 148-149 and 160-161):
`if text and len(text) > 2000: text = text[:2000] + "…"`. -/
def truncate_text (t : PyStr) : PyStr :=
  if t ≠ [] ∧ t.length > 2000 then t.take 2000 ++ ['…'] else t

/-- The response-mapping tail of `make_request` (api_client.py
lines 139-166): `raise_for_status` sends every non-2xx status to the
`HTTPStatusError` wrapper; for 2xx, a JSON body passes through and a
non-JSON body is wrapped with its content type.  Both wrappers carry the
truncated `text`. -/
def map_upstream_response (resp : UpstreamResponse) : ApiResult :=
  if 200 ≤ resp.status ∧ resp.status ≤ 299 then
    match resp.jsonVal with
    | some v => .ok v
    | none => .nonJsonWrap resp.status resp.content_type (truncate_text resp.body)
  else .statusWrap resp.status (truncate_text resp.body)

/-- `make_request` for a GET (api_client.py lines 93-166) with the
transport abstracted: token injection via `_ensure_api_token`, the
`if err` / `if not url` guards of lines 107-111, then the response
mapping.  `responseFor` stands for the shared `httpx` client's request. -/
def make_request (ctx : RequestContext)
    (responseFor : PyStr → UpstreamResponse) (url : PyStr) : ApiResult :=
  match ensure_api_token ctx url with
  | (_, some e) => .errorMsg e
  | (none, none) => .errorMsg "Invalid request URL.".toList
  | (some u, none) =>
      if u = [] then .errorMsg "Invalid request URL.".toList
      else map_upstream_response (responseFor u)

/-! ## Theorems -/

/-- C10: `make_request` injects an `api_token` query parameter only when
the literal substring `"api_token="` does not occur anywhere in the URL
string; any URL already containing that substring (in any position) is
passed through unchanged with no credential from the request context or
environment appended, and `make_request` sends it upstream as is. -/
theorem ensure_api_token_substring_law (ctx : RequestContext) (url : PyStr)
    (responseFor : PyStr → UpstreamResponse) :
    (API_TOKEN_SUBSTR <:+: url → ensure_api_token ctx url = (some url, none)) ∧
    (API_TOKEN_SUBSTR <:+: url → url ≠ [] →
      make_request ctx responseFor url = map_upstream_response (responseFor url)) ∧
    (¬ API_TOKEN_SUBSTR <:+: url → ∀ t, ctx.ctxToken = some t → t ≠ [] →
      ensure_api_token ctx url = (some (addTokenToUrl url t), none)) := by
  refine ⟨fun h => by simp [ensure_api_token, h], fun h hne => ?_, ?_⟩
  · simp [make_request, ensure_api_token, h, hne]
  · intro h t ht hne
    simp [ensure_api_token, h, ht, hne]

/-- Witness for C10: a URL carrying `api_token=` inside another
parameter's value passes through unchanged even though a request token
is available, while a URL without the substring gets that token
appended. -/
theorem ensure_api_token_substring_law_witness :
    ensure_api_token ⟨some "SECRET".toList, true, some "ENVKEY".toList⟩
        "https://eodhd.com/api/eod?fmt=api_token=evil".toList =
      (some "https://eodhd.com/api/eod?fmt=api_token=evil".toList, none) ∧
    ensure_api_token ⟨some "SECRET".toList, true, some "ENVKEY".toList⟩
        "https://eodhd.com/api/eod/AAPL.US".toList =
      (some (addTokenToUrl "https://eodhd.com/api/eod/AAPL.US".toList
        "SECRET".toList), none) :=
  ⟨(ensure_api_token_substring_law ⟨some "SECRET".toList, true, some "ENVKEY".toList⟩
      "https://eodhd.com/api/eod?fmt=api_token=evil".toList
      (fun _ => ⟨200, [], [], some []⟩)).1 (by decide),
   (ensure_api_token_substring_law ⟨some "SECRET".toList, true, some "ENVKEY".toList⟩
      "https://eodhd.com/api/eod/AAPL.US".toList
      (fun _ => ⟨200, [], [], some []⟩)).2.2 (by decide)
      "SECRET".toList rfl (by decide)⟩

/-- C9 counterexample: a non-2xx upstream body of 2001 characters is
wrapped with a `text` field of length 2001 (2000 kept characters plus an
appended ellipsis), so the `text` field is not truncated to at most 2000
characters as the claim states. -/
theorem make_request_truncation_counterexample :
    map_upstream_response ⟨404, [], List.replicate 2001 'a', none⟩ =
      .statusWrap 404 (List.take 2000 (List.replicate 2001 'a') ++ ['…']) ∧
    (List.take 2000 (List.replicate 2001 'a') ++ ['…']).length = 2001 ∧
    ¬ (truncate_text (List.replicate 2001 'a')).length ≤ 2000 := by
  have hlen : (List.replicate 2001 'a' : List Char).length = 2001 :=
    List.length_replicate 2001 'a'
  have hcond : (List.replicate 2001 'a' : List Char) ≠ [] ∧
      (List.replicate 2001 'a' : List Char).length > 2000 := by
    refine ⟨List.ne_nil_of_length_pos ?_, ?_⟩ <;> rw [hlen] <;> norm_num
  have htr : truncate_text (List.replicate 2001 'a') =
      List.take 2000 (List.replicate 2001 'a') ++ ['…'] := by
    rw [truncate_text, if_pos hcond]
  have hlen2 : (List.take 2000 (List.replicate 2001 'a') ++ ['…']).length = 2001 := by
    rw [List.length_append, List.length_take, hlen]
    norm_num
  refine ⟨?_, hlen2, ?_⟩
  · simp only [map_upstream_response]
    rw [if_neg (by norm_num), htr]
  · rw [htr, hlen2]
    norm_num

/-- C9 amended: for non-JSON and non-2xx upstream responses the wrapper's
`text` field is the response body unchanged when the body has at most
2000 characters; when the body is longer, it is the first 2000
characters with one appended ellipsis character, for a total length of
2001 (one more than the claimed bound). -/
theorem make_request_truncation_amended (resp : UpstreamResponse) :
    (resp.body.length ≤ 2000 → truncate_text resp.body = resp.body) ∧
    (2000 < resp.body.length →
      truncate_text resp.body = resp.body.take 2000 ++ ['…'] ∧
      (truncate_text resp.body).length = 2001) ∧
    (¬ (200 ≤ resp.status ∧ resp.status ≤ 299) →
      map_upstream_response resp =
        .statusWrap resp.status (truncate_text resp.body)) ∧
    (200 ≤ resp.status ∧ resp.status ≤ 299 → resp.jsonVal = none →
      map_upstream_response resp =
        .nonJsonWrap resp.status resp.content_type (truncate_text resp.body)) := by
  refine ⟨fun h => ?_, fun h => ?_, fun h => ?_, fun h hj => ?_⟩
  · simp only [truncate_text]
    rw [if_neg]
    omega
  · have hne : resp.body ≠ [] := by
      intro hnil
      rw [hnil] at h
      simp at h
    constructor
    · simp [truncate_text, hne, h]
    · simp [truncate_text, hne, h]
      omega
  · simp [map_upstream_response, h]
  · simp [map_upstream_response, h, hj]

/-- Witness for C9 amended: a short body passes through unchanged in the
non-2xx wrapper. -/
theorem make_request_truncation_amended_witness :
    truncate_text "Not Found".toList = "Not Found".toList ∧
    map_upstream_response ⟨500, [], "Not Found".toList, none⟩ =
      .statusWrap 500 (truncate_text "Not Found".toList) :=
  ⟨(make_request_truncation_amended ⟨500, [], "Not Found".toList, none⟩).1
      (by decide),
   (make_request_truncation_amended ⟨500, [], "Not Found".toList, none⟩).2.2.1
      (by decide)⟩

/-- C1: `consume_auth_code` is `await _get` followed by `await _delete`
(token_storage.py lines 201-209), so under the interleaved schedule
get₁ get₂ delete₁ delete₂ two concurrent `/token` handlers presenting
the same unexpired code BOTH observe the value — contradicting the
claimed atomicity (at most one caller observes the value, the other
answering `invalid_grant`).  Under the serialized schedule the second
consumer does fail, which is the claimed intent. -/
theorem consume_auth_code_not_atomic :
    (runRace 0 [true, false, true, false]
        ⟨some { code := "C", client_id := "cid", redirect_uri := "http://cb",
                user_id := "u", scopes := ["full-access"], expires_at := 10 },
          .start, .start⟩).p1 =
      .done (some { code := "C", client_id := "cid", redirect_uri := "http://cb",
                    user_id := "u", scopes := ["full-access"], expires_at := 10 }) ∧
    (runRace 0 [true, false, true, false]
        ⟨some { code := "C", client_id := "cid", redirect_uri := "http://cb",
                user_id := "u", scopes := ["full-access"], expires_at := 10 },
          .start, .start⟩).p2 =
      .done (some { code := "C", client_id := "cid", redirect_uri := "http://cb",
                    user_id := "u", scopes := ["full-access"], expires_at := 10 }) ∧
    (runRace 0 [true, true, false]
        ⟨some { code := "C", client_id := "cid", redirect_uri := "http://cb",
                user_id := "u", scopes := ["full-access"], expires_at := 10 },
          .start, .start⟩).p1 =
      .done (some { code := "C", client_id := "cid", redirect_uri := "http://cb",
                    user_id := "u", scopes := ["full-access"], expires_at := 10 }) ∧
    (runRace 0 [true, true, false]
        ⟨some { code := "C", client_id := "cid", redirect_uri := "http://cb",
                user_id := "u", scopes := ["full-access"], expires_at := 10 },
          .start, .start⟩).p2 = .done none := by
  refine ⟨?_, ?_, ?_, ?_⟩ <;> rfl

/-- C6 counterexample: a stored access token read at exactly
`now = expires_at` is returned, because `get_access_token` compares with
strict `>` (token_storage.py line 221); the claim demands "not found"
already at `now ≥ expires_at`. -/
theorem get_access_token_at_expiry_counterexample :
    (100 : ℚ) ≥ 100 ∧
    get_access_token (fun _ => "H")
        { Store.empty with
          toks := upd Store.empty.toks "H"
            { token := "T", client_id := "cid", user_id := "u",
              scopes := ["full-access"], expires_at := 100, issued_at := 0 } }
        100 "T" =
      some { token := "T", client_id := "cid", user_id := "u",
             scopes := ["full-access"], expires_at := 100, issued_at := 0 } := by
  constructor
  · norm_num
  · simp [get_access_token, Store.empty, upd]

/-- C6 amended: reads return "not found" when `now` is strictly after
`expires_at` (the source compares with `>`, so at `now = expires_at` the
entry is still returned): an expired access-token read yields nothing,
and consuming an expired authorization code yields nothing while still
deleting the entry. -/
theorem storage_read_expiry_amended :
    (∀ (hash : String → String) (s : Store) (now : ℚ) (t : String)
        (a : AccessTok), s.toks (hash t) = some a → now > a.expires_at →
      get_access_token hash s now t = none) ∧
    (∀ (s : Store) (now : ℚ) (c : String) (d : ACode),
      s.codes c = some d → now > d.expires_at →
      (consume_auth_code s now c).1 = none ∧
      (consume_auth_code s now c).2 c = none) := by
  constructor
  · intro hash s now t a ha hexp
    simp [get_access_token, ha, hexp]
  · intro s now c d hc hexp
    constructor
    · simp [consume_auth_code, hc, hexp]
    · simp [consume_auth_code, hc, del]

/-- Witness for C6 amended: one second past expiry, the token read
returns nothing and the code consumption returns nothing and deletes. -/
theorem storage_read_expiry_amended_witness :
    get_access_token (fun _ => "H")
        ⟨fun _ => none, fun _ => none, fun _ => none, fun _ => none,
          upd (fun _ => none) "H"
            { token := "T2", client_id := "cid", user_id := "u",
              scopes := ["full-access"], expires_at := 100, issued_at := 0 }⟩
        101 "T2" = none ∧
    (consume_auth_code
        ⟨fun _ => none, fun _ => none, fun _ => none,
          upd (fun _ => none) "C2"
            { code := "C2", client_id := "cid", redirect_uri := "http://cb",
              user_id := "u", scopes := ["full-access"], expires_at := 100 },
          fun _ => none⟩
        101 "C2").1 = none ∧
    (consume_auth_code
        ⟨fun _ => none, fun _ => none, fun _ => none,
          upd (fun _ => none) "C2"
            { code := "C2", client_id := "cid", redirect_uri := "http://cb",
              user_id := "u", scopes := ["full-access"], expires_at := 100 },
          fun _ => none⟩
        101 "C2").2 "C2" = none := by
  refine ⟨storage_read_expiry_amended.1 (fun _ => "H")
      ⟨fun _ => none, fun _ => none, fun _ => none, fun _ => none,
        upd (fun _ => none) "H"
          { token := "T2", client_id := "cid", user_id := "u",
            scopes := ["full-access"], expires_at := 100, issued_at := 0 }⟩
      101 "T2"
      { token := "T2", client_id := "cid", user_id := "u",
        scopes := ["full-access"], expires_at := 100, issued_at := 0 }
      (by simp [upd]) (by norm_num),
    (storage_read_expiry_amended.2
      ⟨fun _ => none, fun _ => none, fun _ => none,
        upd (fun _ => none) "C2"
          { code := "C2", client_id := "cid", redirect_uri := "http://cb",
            user_id := "u", scopes := ["full-access"], expires_at := 100 },
        fun _ => none⟩
      101 "C2"
      { code := "C2", client_id := "cid", redirect_uri := "http://cb",
        user_id := "u", scopes := ["full-access"], expires_at := 100 }
      (by simp [upd]) (by norm_num)).1,
    (storage_read_expiry_amended.2
      ⟨fun _ => none, fun _ => none, fun _ => none,
        upd (fun _ => none) "C2"
          { code := "C2", client_id := "cid", redirect_uri := "http://cb",
            user_id := "u", scopes := ["full-access"], expires_at := 100 },
        fun _ => none⟩
      101 "C2"
      { code := "C2", client_id := "cid", redirect_uri := "http://cb",
        user_id := "u", scopes := ["full-access"], expires_at := 100 }
      (by simp [upd]) (by norm_num)).2⟩

/-- C7 counterexample: `register_client` overwrites unconditionally
(token_storage.py line 184, a plain `_put`), and
`register_client_endpoint` accepts a caller-supplied `client_id`
(auth_server.py line 397), so a second registration under the same
`client_id` replaces the stored record — it is not immutable after
creation. -/
theorem register_client_overwrite_counterexample :
    (applyOps (fun h => h) Store.empty
        [.registerClient
          { client_id := "c", client_secret := some "s1",
            redirect_uris := ["http://a/cb"], client_name := "A",
            token_endpoint_auth_method := "client_secret_post" }]).clients "c" =
      some { client_id := "c", client_secret := some "s1",
             redirect_uris := ["http://a/cb"], client_name := "A",
             token_endpoint_auth_method := "client_secret_post" } ∧
    (applyOps (fun h => h) Store.empty
        [.registerClient
          { client_id := "c", client_secret := some "s1",
            redirect_uris := ["http://a/cb"], client_name := "A",
            token_endpoint_auth_method := "client_secret_post" },
         .registerClient
          { client_id := "c", client_secret := some "s2",
            redirect_uris := ["http://b/cb"], client_name := "B",
            token_endpoint_auth_method := "client_secret_post" }]).clients "c" =
      some { client_id := "c", client_secret := some "s2",
             redirect_uris := ["http://b/cb"], client_name := "B",
             token_endpoint_auth_method := "client_secret_post" } ∧
    ({ client_id := "c", client_secret := some "s2",
       redirect_uris := ["http://b/cb"], client_name := "B",
       token_endpoint_auth_method := "client_secret_post" } : OAuthClient) ≠
      { client_id := "c", client_secret := some "s1",
        redirect_uris := ["http://a/cb"], client_name := "A",
        token_endpoint_auth_method := "client_secret_post" } := by
  refine ⟨?_, ?_, ?_⟩
  · simp [applyOps, applyOp, upd]
  · simp [applyOps, applyOp, upd]
  · simp

/-- C7 amended: a stored client record is retained for the process
lifetime — no storage operation deletes clients, and any sequence of
operations containing no registration under the same `client_id` leaves
the record unchanged.  Immutability as claimed fails only because a
later registration with the same `client_id` overwrites the record. -/
theorem client_retention_amended (hash : String → String) (s : Store)
    (ops : List StoreOp) (c : String) (rec : OAuthClient)
    (hc : s.clients c = some rec)
    (hno : ∀ cl, StoreOp.registerClient cl ∈ ops → cl.client_id ≠ c) :
    (applyOps hash s ops).clients c = some rec := by
  induction ops generalizing s with
  | nil => simpa [applyOps] using hc
  | cons op rest ih =>
      have hstep : applyOps hash s (op :: rest) =
          applyOps hash (applyOp hash s op) rest := rfl
      rw [hstep]
      apply ih
      · cases op with
        | registerClient cl =>
            have hne : cl.client_id ≠ c :=
              hno cl (by simp)
            simp only [applyOp, upd]
            rw [if_neg (fun h => hne h.symm)]
            exact hc
        | addUser u => simpa [applyOp] using hc
        | storeAuthCode a => simpa [applyOp] using hc
        | consumeAuthCode code => simpa [applyOp] using hc
        | storeAccessToken t => simpa [applyOp] using hc
      · intro cl hm
        exact hno cl (List.mem_cons_of_mem _ hm)

/-- Witness for C7 amended: a client survives a user write, a code store
and consumption, a token store, and a registration under a different
`client_id`. -/
theorem client_retention_amended_witness :
    (applyOps (fun h => h)
        ⟨upd (fun _ => none) "c"
          { client_id := "c", client_secret := none,
            redirect_uris := ["http://a/cb"], client_name := "A",
            token_endpoint_auth_method := "none" },
          fun _ => none, fun _ => none, fun _ => none, fun _ => none⟩
        [.addUser { email := "e@x", eodhd_api_key := "K" },
         .storeAuthCode
          { code := "AC", client_id := "c", redirect_uri := "http://a/cb",
            user_id := "e@x", scopes := ["full-access"], expires_at := 10 },
         .consumeAuthCode "AC",
         .storeAccessToken
          { token := "T", client_id := "c", user_id := "e@x",
            scopes := ["full-access"], expires_at := 10, issued_at := 0 },
         .registerClient
          { client_id := "d", client_secret := none,
            redirect_uris := ["http://d/cb"], client_name := "D",
            token_endpoint_auth_method := "none" }]).clients "c" =
      some { client_id := "c", client_secret := none,
             redirect_uris := ["http://a/cb"], client_name := "A",
             token_endpoint_auth_method := "none" } := by
  apply client_retention_amended (fun h => h) _ _ "c"
  · simp [upd]
  · intro cl hm
    simp only [List.mem_cons, List.not_mem_nil, or_false] at hm
    rcases hm with h | h | h | h | h
    · exact StoreOp.noConfusion h
    · exact StoreOp.noConfusion h
    · exact StoreOp.noConfusion h
    · exact StoreOp.noConfusion h
    · cases StoreOp.registerClient.inj h
      decide

/-- C8 counterexample: `add_user` (token_storage.py lines 159-161) never
removes old index entries, so a user logging in again with a rotated
credential leaves the stale `hash(old credential) → email` entry behind:
the index is then neither one-to-one (two hashes map to the same email)
nor consistent (the stale entry's hash is not the hash of the credential
currently stored on the user record).  Shown with the hash parameter
instantiated to the identity. -/
theorem credential_index_counterexample :
    (applyOps (fun h => h) Store.empty
        [.addUser { email := "e@x", eodhd_api_key := "K1" },
         .addUser { email := "e@x", eodhd_api_key := "K2" }]).index "K1" =
      some "e@x" ∧
    (applyOps (fun h => h) Store.empty
        [.addUser { email := "e@x", eodhd_api_key := "K1" },
         .addUser { email := "e@x", eodhd_api_key := "K2" }]).index "K2" =
      some "e@x" ∧
    ("K1" : String) ≠ "K2" ∧
    (applyOps (fun h => h) Store.empty
        [.addUser { email := "e@x", eodhd_api_key := "K1" },
         .addUser { email := "e@x", eodhd_api_key := "K2" }]).users "e@x" =
      some { email := "e@x", eodhd_api_key := "K2" } ∧
    ({ email := "e@x", eodhd_api_key := "K2" } : UserRec).eodhd_api_key ≠ "K1" := by
  refine ⟨?_, ?_, ?_, ?_, ?_⟩ <;> simp [applyOps, applyOp, upd, Store.empty]

/-- Helper for C8: one storage operation preserves "every credential
index entry maps to the email of an existing user record" — no operation
deletes users or index entries, and `add_user` writes the user record
together with its index entry. -/
theorem index_entry_user_exists_step (hash : String → String) (s : Store)
    (op : StoreOp)
    (hInv : ∀ h e, s.index h = some e → (s.users e).isSome) :
    ∀ h e, (applyOp hash s op).index h = some e →
      ((applyOp hash s op).users e).isSome := by
  intro h e hhe
  cases op with
  | addUser u =>
      simp only [applyOp, upd] at hhe ⊢
      by_cases hh : h = hash u.eodhd_api_key
      · rw [if_pos hh] at hhe
        cases hhe
        simp
      · rw [if_neg hh] at hhe
        by_cases he : e = u.email
        · simp [he]
        · simpa [he] using hInv h e hhe
  | registerClient c => simpa [applyOp] using hInv h e (by simpa [applyOp] using hhe)
  | storeAuthCode a => simpa [applyOp] using hInv h e (by simpa [applyOp] using hhe)
  | consumeAuthCode code => simpa [applyOp] using hInv h e (by simpa [applyOp] using hhe)
  | storeAccessToken t => simpa [applyOp] using hInv h e (by simpa [applyOp] using hhe)

/-- Helper for C8: the previous step property, folded over a sequence of
operations. -/
theorem index_entry_user_exists_fold (hash : String → String)
    (ops : List StoreOp) :
    ∀ (s : Store), (∀ h e, s.index h = some e → (s.users e).isSome) →
      ∀ h e, (applyOps hash s ops).index h = some e →
        ((applyOps hash s ops).users e).isSome := by
  induction ops with
  | nil => intro s hs; simpa [applyOps] using hs
  | cons op rest ih =>
      intro s hs
      have hstep : applyOps hash s (op :: rest) =
          applyOps hash (applyOp hash s op) rest := rfl
      rw [hstep]
      exact ih (applyOp hash s op) (index_entry_user_exists_step hash s op hs)

/-- C8 amended: after any sequence of storage operations from the empty
store, every entry of the `hash(credential) → email` index maps to the
email of an existing user record, and immediately after each `add_user`
the entry for that user's current credential is consistent
(`index (hash u.credential) = u.email` and `users u.email = u`).  The
claimed one-to-one-ness and global consistency with the *current*
credential fail, because stale entries from earlier credentials are
never removed. -/
theorem credential_index_amended :
    (∀ (hash : String → String) (ops : List StoreOp) (h e : String),
      (applyOps hash Store.empty ops).index h = some e →
      ∃ u, (applyOps hash Store.empty ops).users e = some u) ∧
    (∀ (hash : String → String) (s : Store) (u : UserRec),
      (applyOp hash s (.addUser u)).index (hash u.eodhd_api_key) =
        some u.email ∧
      (applyOp hash s (.addUser u)).users u.email = some u) := by
  constructor
  · intro hash ops h e hhe
    have := index_entry_user_exists_fold hash ops Store.empty
      (by intro h' e' hfalse; simp [Store.empty] at hfalse) h e hhe
    exact Option.isSome_iff_exists.mp this
  · intro hash s u
    constructor <;> simp [applyOp, upd]

/-- Witness for C8 amended: after one login the index entry for the
user's credential hash maps to an existing user record. -/
theorem credential_index_amended_witness :
    (∃ u, (applyOps (fun h => h) Store.empty
      [.addUser { email := "e@x", eodhd_api_key := "K" }]).users "e@x" =
        some u) ∧
    (applyOp (fun h => h) Store.empty
      (.addUser { email := "e@x", eodhd_api_key := "K" })).index "K" =
        some "e@x" :=
  ⟨credential_index_amended.1 (fun h => h)
      [.addUser { email := "e@x", eodhd_api_key := "K" }] "K" "e@x"
      (by simp [applyOps, applyOp, upd, Store.empty]),
   (credential_index_amended.2 (fun h => h) Store.empty
      { email := "e@x", eodhd_api_key := "K" }).1⟩

/-- C4: PKCE law.  For an authorization code carrying a (non-empty)
`code_challenge`, the token endpoint's PKCE check passes if and only if
the code's `code_challenge_method` is `S256`, a (non-empty)
`code_verifier` is present, and the unpadded URL-safe base64 of
SHA-256(code_verifier) equals the stored challenge; and when a present
verifier hashes to something else, the response is the 400
`invalid_grant` error. -/
theorem pkce_law (sha256 : String → List Nat) (ac : ACode)
    (v? : Option String) (cc : String)
    (hcc : ac.code_challenge = some cc) (hne : cc ≠ "") :
    (pkceCheck sha256 ac v? = none ↔
      ac.code_challenge_method = some "S256" ∧
      ∃ v, v? = some v ∧ v ≠ "" ∧
        String.mk (base64urlNoPad (sha256 v)) = cc) ∧
    (∀ v, v? = some v → v ≠ "" → ac.code_challenge_method = some "S256" →
      String.mk (base64urlNoPad (sha256 v)) ≠ cc →
      pkceCheck sha256 ac v? =
        some ⟨"invalid_grant", "Invalid code_verifier", 400⟩) := by
  have hstep : pkceCheck sha256 ac v? =
      (if ac.code_challenge_method ≠ some "S256" then
        some ⟨"invalid_grant", "Unsupported PKCE method", 400⟩
      else
        match truthy v? with
        | none => some ⟨"invalid_request", "code_verifier is required", 400⟩
        | some v =>
            if pkce_s256 sha256 v ≠ cc then
              some ⟨"invalid_grant", "Invalid code_verifier", 400⟩
            else none) := by
    simp [pkceCheck, truthy, hcc, hne]
  constructor
  · constructor
    · intro h
      rw [hstep] at h
      by_cases hm : ac.code_challenge_method = some "S256"
      · refine ⟨hm, ?_⟩
        simp only [hm, ne_eq, not_true_eq_false, if_false] at h
        cases hv : v? with
        | none => rw [hv] at h; simp [truthy] at h
        | some v =>
            by_cases hv0 : v = ""
            · rw [hv, hv0] at h; simp [truthy] at h
            · rw [hv] at h
              simp only [truthy, hv0, if_neg] at h
              by_cases hpk : pkce_s256 sha256 v = cc
              · exact ⟨v, rfl, hv0, hpk⟩
              · simp [hpk] at h
      · rw [if_pos hm] at h
        exact absurd h (by simp)
    · rintro ⟨hm, v, hv, hv0, hpk⟩
      rw [hstep, hv]
      simp [hm, truthy, hv0, pkce_s256, hpk]
  · intro v hv hv0 hm hpk
    rw [hstep, hv]
    simp [hm, truthy, hv0, pkce_s256, hpk]

/-- Witness for C4: with the digest instantiated to a fixed 32-byte
value, a verifier whose encoded digest equals the stored challenge
passes the PKCE check under method `S256`. -/
theorem pkce_law_witness :
    pkceCheck (fun _ => List.replicate 32 0)
      { code := "C", client_id := "cid", redirect_uri := "http://cb",
        user_id := "u", scopes := ["full-access"], expires_at := 10,
        code_challenge := some (String.mk (base64urlNoPad (List.replicate 32 0))),
        code_challenge_method := some "S256" }
      (some "verifier") = none :=
  (pkce_law (fun _ => List.replicate 32 0)
      { code := "C", client_id := "cid", redirect_uri := "http://cb",
        user_id := "u", scopes := ["full-access"], expires_at := 10,
        code_challenge := some (String.mk (base64urlNoPad (List.replicate 32 0))),
        code_challenge_method := some "S256" }
      (some "verifier") (String.mk (base64urlNoPad (List.replicate 32 0)))
      rfl (by decide)).1.mpr
    ⟨rfl, "verifier", rfl, by decide, rfl⟩

/-- Helper for C5: when the SSRF guard rejects the hostname, the URL
validator reports some error (the earlier syntactic checks may fire
first, but the result is an error either way). -/
theorem validate_isSome_of_not_public (env : DnsEnv) (url : ClientIdUrl)
    (h : hostname_is_public env url.hostname = false) :
    ∃ e, validate_client_id_url env url = some e := by
  unfold validate_client_id_url
  split_ifs with h1 h2 h3 h4 h5 h6 h7 h8
  any_goals exact ⟨_, rfl⟩
  rw [h] at h8
  simp at h8

/-- Helper for C5: an IP-literal hostname classified non-global fails
`_hostname_is_public`. -/
theorem hostname_not_public_of_bad_literal (env : DnsEnv)
    (hostname : String) (ip : IpAddr)
    (hp : env.parseIp (stripBrackets (pyLower (pyStrip hostname))) = some ip)
    (hg : is_global_ip ip = false) :
    hostname_is_public env hostname = false := by
  unfold hostname_is_public
  split_ifs with h1 h2
  · rfl
  · rfl
  · rw [hp]
    exact hg

/-- Helper for C5: a hostname resolving to a list containing any
non-global address fails `_hostname_is_public` (the source requires
`all` resolved addresses to be global). -/
theorem hostname_not_public_of_bad_resolution (env : DnsEnv)
    (hostname : String) (addrs : List IpAddr) (a : IpAddr)
    (hlit : env.parseIp (stripBrackets (pyLower (pyStrip hostname))) = none)
    (hres : env.getaddrinfo hostname = some addrs)
    (ha : a ∈ addrs) (hg : is_global_ip a = false) :
    hostname_is_public env hostname = false := by
  unfold hostname_is_public
  split_ifs with h1 h2
  · rfl
  · rfl
  · rw [hlit, hres]
    have hne : addrs.isEmpty = false := by
      cases addrs with
      | nil => cases ha
      | cons x xs => rfl
    change (if addrs.isEmpty = true then false else addrs.all is_global_ip) = false
    rw [hne]
    simp only [Bool.false_eq_true, if_false]
    cases hall : addrs.all is_global_ip with
    | false => rfl
    | true =>
        have := List.all_eq_true.mp hall a ha
        rw [hg] at this
        cases this

/-- C5: SSRF guard.  If the `client_id` URL's hostname is an IP literal
that is not globally routable, or resolves to an address list containing
any non-globally-routable address, then `_fetch_client_metadata_document`
fails (raises `ValueError`) and the HTTP GET of line 292 is never
issued — validation runs before the cache check and before any HTTP. -/
theorem ssrf_guard_no_http (env : DnsEnv)
    (cache : String → Option (MetaJson × ℚ)) (now : ℚ)
    (http : String → HttpResp) (url : ClientIdUrl) :
    (∀ ip, env.parseIp (stripBrackets (pyLower (pyStrip url.hostname))) = some ip →
      is_global_ip ip = false →
      (∃ e, (fetch_client_metadata_document env cache now http url).1 = .error e) ∧
      (fetch_client_metadata_document env cache now http url).2 = false) ∧
    (∀ addrs a,
      env.parseIp (stripBrackets (pyLower (pyStrip url.hostname))) = none →
      env.getaddrinfo url.hostname = some addrs → a ∈ addrs →
      is_global_ip a = false →
      (∃ e, (fetch_client_metadata_document env cache now http url).1 = .error e) ∧
      (fetch_client_metadata_document env cache now http url).2 = false) := by
  have main : hostname_is_public env url.hostname = false →
      (∃ e, (fetch_client_metadata_document env cache now http url).1 = .error e) ∧
      (fetch_client_metadata_document env cache now http url).2 = false := by
    intro hpub
    obtain ⟨e, he⟩ := validate_isSome_of_not_public env url hpub
    have hfe : fetch_client_metadata_document env cache now http url =
        (.error e, false) := by
      simp [fetch_client_metadata_document, he]
    rw [hfe]
    exact ⟨⟨e, rfl⟩, rfl⟩
  constructor
  · intro ip hp hg
    exact main (hostname_not_public_of_bad_literal env url.hostname ip hp hg)
  · intro addrs a hlit hres ha hg
    exact main
      (hostname_not_public_of_bad_resolution env url.hostname addrs a hlit hres ha hg)

/-- Witness for C5: a `client_id` URL whose host is the non-global
literal `10.0.0.1` fails with no HTTP request sent, even with an HTTP
stub that would answer 200. -/
theorem ssrf_guard_no_http_witness :
    (∃ e, (fetch_client_metadata_document
        ⟨fun s => if s = "10.0.0.1" then some ⟨"10.0.0.1", false⟩ else none,
          fun _ => none⟩
        (fun _ => none) 0 (fun _ => ⟨200, 10, true, none, none⟩)
        ⟨"https://10.0.0.1/client.json", "https", "10.0.0.1", "10.0.0.1",
          "", "", "/client.json", ""⟩).1 = .error e) ∧
    (fetch_client_metadata_document
        ⟨fun s => if s = "10.0.0.1" then some ⟨"10.0.0.1", false⟩ else none,
          fun _ => none⟩
        (fun _ => none) 0 (fun _ => ⟨200, 10, true, none, none⟩)
        ⟨"https://10.0.0.1/client.json", "https", "10.0.0.1", "10.0.0.1",
          "", "", "/client.json", ""⟩).2 = false :=
  (ssrf_guard_no_http
      ⟨fun s => if s = "10.0.0.1" then some ⟨"10.0.0.1", false⟩ else none,
        fun _ => none⟩
      (fun _ => none) 0 (fun _ => ⟨200, 10, true, none, none⟩)
      ⟨"https://10.0.0.1/client.json", "https", "10.0.0.1", "10.0.0.1",
        "", "", "/client.json", ""⟩).1
    ⟨"10.0.0.1", false⟩ (by decide) rfl

/-- C2: at `/authorize` with a logged-in session and a `client_id` that
neither resolves from storage nor is discoverable, the source takes the
unknown-client branch and calls `_error_page(..., 400)` without ever
redirecting to the supplied `redirect_uri` — but `_error_page` invokes
`HTMLResponse`, which auth_server.py never imports (line 42 imports only
`JSONResponse`, `RedirectResponse`, `Response`), so the handler raises
`NameError` and the client receives a 500, not the claimed 400 HTML
page.  No redirect is issued either way. -/
theorem authorize_unknown_client_name_error :
    authorize (fun _ => none) (fun _ => none)
      { logged_in := true, session_user_id := some "u@x",
        response_type := some "code", client_id := some "unknown-client",
        redirect_uri := some "http://localhost:3000/cb", state := none,
        scope := none, code_challenge := none, code_challenge_method := none }
      "NEWCODE" 0 "http://srv/v2/mcp" 600 =
      .errorPage
        "Unknown client_id (and metadata discovery failed or is unsupported)"
        400 ∧
    renderAuthorize
      (.errorPage
        "Unknown client_id (and metadata discovery failed or is unsupported)"
        400) =
      .internalServerError "NameError: name HTMLResponse is not defined" ∧
    ∀ uri ps,
      renderAuthorize
        (.errorPage
          "Unknown client_id (and metadata discovery failed or is unsupported)"
          400) ≠ .redirect303 uri ps := by
  refine ⟨by rfl, by rfl, ?_⟩
  intro uri ps h
  exact HttpResponse.noConfusion h

/-- C3 counterexample: `javascript:alert(1)` is not http/https-safe
(`_safe_redirect_uri` rejects it), yet when it is supplied as an
unregistered `redirect_uri` for a known client, `authorize_endpoint`
answers with the 303 `error=invalid_request` redirect to it
(auth_server.py lines 561-562 redirect unconditionally) — not with the
HTML 400 page the claim requires for non-safe URIs. -/
theorem authorize_unsafe_redirect_counterexample :
    safe_redirect_uri "javascript:alert(1)" = false ∧
    authorize
      (fun k => if k = "cid1" then
        some { client_id := "cid1", client_secret := none,
               redirect_uris := ["http://localhost:3000/cb"],
               client_name := "X", token_endpoint_auth_method := "none" }
        else none)
      (fun _ => none)
      { logged_in := true, session_user_id := some "u@x",
        response_type := some "code", client_id := some "cid1",
        redirect_uri := some "javascript:alert(1)", state := some "S",
        scope := none, code_challenge := none, code_challenge_method := none }
      "NEWCODE" 0 "http://srv/v2/mcp" 600 =
      .errorRedirect "javascript:alert(1)" "invalid_request"
        "Invalid redirect_uri" (some "S") ∧
    ∀ m s, AuthorizeResult.errorRedirect "javascript:alert(1)"
        "invalid_request" "Invalid redirect_uri" (some "S") ≠
      .errorPage m s := by
  refine ⟨by decide, by rfl, ?_⟩
  intro m s h
  exact AuthorizeResult.noConfusion h

/-- C3 amended: whenever the resolved client's registered list does not
contain the supplied `redirect_uri` exactly, `authorize_endpoint`
answers 303 to that URI with `error=invalid_request` unconditionally —
no http/https-safety check guards this branch (an HTML 400 fallback
exists only in the unsupported-response_type branch). -/
theorem authorize_unregistered_redirect_amended
    (clients discover : String → Option OAuthClient)
    (req : AuthorizeRequest) (client : OAuthClient) (cid uri : String)
    (newCode : String) (now : ℚ) (resource : String) (authCodeExpires : ℚ)
    (hlog : req.logged_in = true)
    (hrt : req.response_type = some "code")
    (hcid : truthy req.client_id = some cid)
    (huri : truthy req.redirect_uri = some uri)
    (hload : load_or_discover_client clients discover cid = some client)
    (hmem : uri ∉ client.redirect_uris) :
    authorize clients discover req newCode now resource authCodeExpires =
      .errorRedirect uri "invalid_request" "Invalid redirect_uri"
        (truthy req.state) := by
  simp [authorize, hlog, hrt, hcid, huri, hload, hmem]

/-- Witness for C3 amended: an unregistered `ftp:` redirect URI draws
the 303 `invalid_request` redirect. -/
theorem authorize_unregistered_redirect_amended_witness :
    authorize
      (fun k => if k = "w1" then
        some { client_id := "w1", client_secret := none,
               redirect_uris := ["http://a/cb"], client_name := "W",
               token_endpoint_auth_method := "none" }
        else none)
      (fun _ => none)
      { logged_in := true, session_user_id := some "u@x",
        response_type := some "code", client_id := some "w1",
        redirect_uri := some "ftp://files.example/cb", state := none,
        scope := none, code_challenge := none, code_challenge_method := none }
      "NEWCODE2" 0 "http://srv/v2/mcp" 600 =
      .errorRedirect "ftp://files.example/cb" "invalid_request"
        "Invalid redirect_uri" none :=
  authorize_unregistered_redirect_amended
    (fun k => if k = "w1" then
      some { client_id := "w1", client_secret := none,
             redirect_uris := ["http://a/cb"], client_name := "W",
             token_endpoint_auth_method := "none" }
      else none)
    (fun _ => none)
    { logged_in := true, session_user_id := some "u@x",
      response_type := some "code", client_id := some "w1",
      redirect_uri := some "ftp://files.example/cb", state := none,
      scope := none, code_challenge := none, code_challenge_method := none }
    { client_id := "w1", client_secret := none,
      redirect_uris := ["http://a/cb"], client_name := "W",
      token_endpoint_auth_method := "none" }
    "w1" "ftp://files.example/cb" "NEWCODE2" 0 "http://srv/v2/mcp" 600
    rfl rfl rfl rfl (by decide) (by decide)

end EodhdMcp
